import Mathlib

/-!
# libaudgui/util.cc

A shallow embedding of the helpers of `src/libaudgui/util.cc` and the properties
of them that the specification states.

The file is glue over GTK.  Toolkit objects are modelled by the part of their
state that this file reads or writes: a widget is a record of its properties,
its object data, its connected signal handlers and its children; a pointer is
a natural-number handle; `NULL` is `none`.  Every function of the source is a
function on these records with the same name, and the statements of the source
are kept in their order.
-/

namespace Audgui

/-! ## C strings and `int` -/

/-- A NUL-terminated C string, as the list of its characters. -/
abbrev CStr := List Char

/-- The libc function `strstr (haystack, needle)`: a pointer to the first
occurrence of `needle` in `haystack` (the rest of the haystack from there on),
or `NULL` when there is none.  An empty needle is found at the start. -/
def strstr : CStr → CStr → Option CStr
  | [], needle => if needle.isPrefixOf [] then some [] else none
  | c :: rest, needle =>
      if needle.isPrefixOf (c :: rest) then some (c :: rest) else strstr rest needle

/-- Modelled from the spec: `str_concat` of libaudcore/audstrings.h is not among
the sources.  The spec describes the message box as growing by appending the
new text to the old one, so `str_concat` is the concatenation of its pieces
in the order given. -/
def str_concat (strings : List CStr) : CStr :=
  strings.foldr (fun s acc => s ++ acc) []

/-- The largest value of the C type `int` (32 bits). -/
def INT_MAX : Int := 2147483647

/-- The C expression `i + k` on an `int i` and a constant `k` that is not
negative, so that the sum can only leave the range of `int` past `INT_MAX`.
There the addition overflows, which C leaves undefined; the model takes the
two's complement result.  The theorems below that depend on such a sum state
the bound that keeps it exact. -/
def int_add (i : Int) (k : Nat) : Int :=
  if i + k > INT_MAX then i + k - 2 ^ 32 else i + k

/-! ## Toolkit objects -/

/-- The `GtkMessageType` enumeration. -/
inductive GtkMessageType where
  | GTK_MESSAGE_INFO
  | GTK_MESSAGE_WARNING
  | GTK_MESSAGE_QUESTION
  | GTK_MESSAGE_ERROR
  | GTK_MESSAGE_OTHER
  deriving DecidableEq

/-- The functions that this file connects to signals. -/
inductive GCallback where
  | escape_destroy_cb
  | gtk_widget_destroy
  | gtk_widget_destroyed
  | audgui_callback (fn : Nat)
  deriving DecidableEq

/-- One connection made by `g_signal_connect` or `g_signal_connect_swapped`. -/
structure SignalHandler where
  signal : String
  callback : GCallback
  data : Option Nat
  swapped : Bool
  deriving DecidableEq

/-- A button widget. -/
structure GtkButton where
  handle : Nat
  label : CStr
  image : Option CStr
  handlers : List SignalHandler
  can_default : Bool
  deriving DecidableEq

/-- A top-level widget (a window or a message dialog): its properties, the
object data stored under the key "messages", its signal handlers and the
buttons of its action area. -/
structure GtkWidget where
  handle : Nat
  message_type : GtkMessageType
  title : Option CStr
  text : Option CStr
  image : Option CStr
  action_widgets : List GtkButton
  default_widget : Option Nat
  messages : Int
  handlers : List SignalHandler
  visible : Bool
  presented : Nat
  destroyed : Bool
  deriving DecidableEq

/-- A key event; only `keyval` is read. -/
structure GdkEventKey where
  keyval : Nat
  deriving DecidableEq

/-- The key symbol of the Escape key (gdk/gdkkeysyms.h). -/
def GDK_KEY_Escape : Nat := 0xff1b

/-- A Pango layout, as far as its measured size depends on this file. -/
structure PangoLayout where
  text : CStr
  bold : Bool
  deriving DecidableEq

/-! ## Toolkit calls -/

def gtk_widget_destroy (widget : GtkWidget) : GtkWidget :=
  { widget with destroyed := true }

def g_signal_connect (widget : GtkWidget) (signal : String) (callback : GCallback)
    (data : Option Nat) : GtkWidget :=
  { widget with handlers := widget.handlers ++ [⟨signal, callback, data, false⟩] }

def g_signal_connect_swapped (button : GtkButton) (signal : String) (callback : GCallback)
    (data : Option Nat) : GtkButton :=
  { button with handlers := button.handlers ++ [⟨signal, callback, data, true⟩] }

def gtk_button_new_with_mnemonic (handle : Nat) (text : CStr) : GtkButton :=
  { handle := handle, label := text, image := none, handlers := [], can_default := false }

def gtk_button_set_image (button : GtkButton) (icon : CStr) : GtkButton :=
  { button with image := some icon }

/-- `gtk_message_dialog_new (NULL, 0, type, GTK_BUTTONS_NONE, "%s", text)`: a
fresh dialog showing `text`, without buttons and without object data (a key
that was never set reads back as `NULL`, which `GPOINTER_TO_INT` turns to 0). -/
def gtk_message_dialog_new (handle : Nat) (type : GtkMessageType) (text : CStr) : GtkWidget :=
  { handle := handle, message_type := type, title := none, text := some text, image := none,
    action_widgets := [], default_widget := none, messages := 0, handlers := [],
    visible := false, presented := 0, destroyed := false }

def gtk_window_set_title (dialog : GtkWidget) (title : CStr) : GtkWidget :=
  { dialog with title := some title }

def gtk_message_dialog_set_image (dialog : GtkWidget) (icon : CStr) : GtkWidget :=
  { dialog with image := some icon }

def gtk_dialog_add_action_widget (dialog : GtkWidget) (button : GtkButton) : GtkWidget :=
  { dialog with action_widgets := dialog.action_widgets ++ [button] }

/-- A write through a button pointer after the button has become a child of
the dialog: the child with that handle is updated in place. -/
def with_child (dialog : GtkWidget) (handle : Nat) (f : GtkButton → GtkButton) : GtkWidget :=
  { dialog with
    action_widgets := dialog.action_widgets.map (fun b => if b.handle = handle then f b else b) }

def gtk_widget_set_can_default (button : GtkButton) (can_default : Bool) : GtkButton :=
  { button with can_default := can_default }

def gtk_widget_grab_default (dialog : GtkWidget) (handle : Nat) : GtkWidget :=
  { dialog with default_widget := some handle }

def gtk_window_present (window : GtkWidget) : GtkWidget :=
  { window with visible := true, presented := window.presented + 1 }

def gtk_widget_show_all (widget : GtkWidget) : GtkWidget :=
  { widget with visible := true }

/-- One handler of a button run on a click, as it acts on the dialog:
`gtk_widget_destroy` connected to "clicked" with the dialog as its data
destroys the dialog; any other handler leaves the dialog as it is. -/
def run_clicked_handler (dialog : GtkWidget) (h : SignalHandler) : GtkWidget :=
  if h.signal = "clicked" ∧ h.callback = GCallback.gtk_widget_destroy
      ∧ h.data = some dialog.handle then gtk_widget_destroy dialog else dialog

/-- The effect on the dialog of a click on one of its buttons: the handlers of
the button run in the order of connection. -/
def gtk_button_clicked (dialog : GtkWidget) (button : GtkButton) : GtkWidget :=
  button.handlers.foldl run_clicked_handler dialog

/-! ## The functions of util.cc -/

/-- The function `audgui_get_digit_width`.  The pixel width of the layout is
what Pango measures; `pango_layout_get_pixel_size` is that measurement.  The
sum and the quotient are `int` operations; C division truncates toward
zero. -/
def audgui_get_digit_width (pango_layout_get_pixel_size : PangoLayout → Int) : Int :=
  let layout : PangoLayout := { text := "0123456789".toList, bold := false }
  let layout := { layout with bold := true }
  let width := pango_layout_get_pixel_size layout
  Int.tdiv (int_add width 9) 10

def escape_destroy_cb (widget : GtkWidget) (event : GdkEventKey) : GtkWidget × Bool :=
  if event.keyval = GDK_KEY_Escape then
    (gtk_widget_destroy widget, true)
  else
    (widget, false)

def audgui_destroy_on_escape (widget : GtkWidget) : GtkWidget :=
  g_signal_connect widget "key-press-event" GCallback.escape_destroy_cb none

def audgui_button_new (handle : Nat) (text : CStr) (icon : Option CStr)
    (callback : Option Nat) (data : Option Nat) : GtkButton :=
  let button := gtk_button_new_with_mnemonic handle text
  let button := match icon with
    | some icon => gtk_button_set_image button icon
    | none => button
  match callback with
  | some fn => g_signal_connect_swapped button "clicked" (GCallback.audgui_callback fn) data
  | none => button

def icon_for_message_type : GtkMessageType → Option CStr
  | .GTK_MESSAGE_INFO => some "dialog-information".toList
  | .GTK_MESSAGE_WARNING => some "dialog-warning".toList
  | .GTK_MESSAGE_QUESTION => some "dialog-question".toList
  | .GTK_MESSAGE_ERROR => some "dialog-error".toList
  | _ => none

def audgui_dialog_new (handle : Nat) (type : GtkMessageType) (title text : CStr)
    (button1 : GtkButton) (button2 : Option GtkButton) : GtkWidget :=
  let dialog := gtk_message_dialog_new handle type text
  let dialog := gtk_window_set_title dialog title
  let dialog := match icon_for_message_type type with
    | some icon => gtk_message_dialog_set_image dialog icon
    | none => dialog
  let dialog := match button2 with
    | some button2 =>
        let dialog := gtk_dialog_add_action_widget dialog button2
        with_child dialog button2.handle
          (fun b => g_signal_connect_swapped b "clicked" GCallback.gtk_widget_destroy
            (some dialog.handle))
    | none => dialog
  let dialog := gtk_dialog_add_action_widget dialog button1
  let dialog := with_child dialog button1.handle
    (fun b => g_signal_connect_swapped b "clicked" GCallback.gtk_widget_destroy
      (some dialog.handle))
  let dialog := with_child dialog button1.handle (fun b => gtk_widget_set_can_default b true)
  gtk_widget_grab_default dialog button1.handle

/-- The state that `audgui_simple_message` works on: the caller's
`GtkWidget *` slot, given by its address `slot` and its contents `widget`
(`none` when it holds `NULL`, otherwise the dialog it points to), and the
number of toolkit objects created so far, which is the handle of the next
one. -/
structure Gui where
  allocated : Nat
  slot : Nat
  widget : Option GtkWidget
  deriving DecidableEq

/-- The message id of the notice shown in place of further messages. -/
def hidden_msgid : CStr := "\n(Further messages have been hidden.)".toList

/-- The function `audgui_simple_message`.  `gettext` is the translation that
the `_()` of libaudcore/i18n.h looks up (the identity when no catalogue is
loaded).  `g_return_if_fail` returns from the function; the debug print has
no effect on the state. -/
def audgui_simple_message (gettext : CStr → CStr) (g : Gui) (type : GtkMessageType)
    (title text : CStr) : Gui :=
  match g.widget with
  | some widget =>
      match widget.text with
      | none => g
      | some old =>
          let messages := widget.messages
          let text := if messages > 10 then gettext hidden_msgid else text
          let widget :=
            if (strstr old text).isNone then
              let both := str_concat [old, "\n".toList, text]
              { widget with text := some both, messages := int_add messages 1 }
            else widget
          { g with widget := some (gtk_window_present widget) }
  | none =>
      let button := audgui_button_new g.allocated (gettext "_Close".toList)
        (some "window-close".toList) none none
      let widget := audgui_dialog_new (g.allocated + 1) type title text button none
      let widget := { widget with messages := 1 }
      let widget := g_signal_connect widget "destroy" GCallback.gtk_widget_destroyed
        (some g.slot)
      { g with allocated := g.allocated + 2, widget := some (gtk_widget_show_all widget) }

/-! ## Observations and runs -/

/-- The notice that takes the place of further messages, as it is shown. -/
def placeholder (gettext : CStr → CStr) : CStr := gettext hidden_msgid

/-- What the message box shows and counts: the "text" property and the
"messages" counter of the dialog in the slot, if there is one. -/
def box (g : Gui) : Option (Option CStr × Int) :=
  g.widget.map (fun w => (w.text, w.messages))

/-- The arguments of one call of `audgui_simple_message`. -/
structure Call where
  type : GtkMessageType
  title : CStr
  text : CStr
  deriving DecidableEq

/-- A sequence of calls of `audgui_simple_message`, one after the other. -/
def run (gettext : CStr → CStr) (g : Gui) : List Call → Gui
  | [] => g
  | c :: rest => run gettext (audgui_simple_message gettext g c.type c.title c.text) rest

/-- The number of calls of a sequence that changed the text of the box. -/
def changes (gettext : CStr → CStr) (g : Gui) : List Call → Nat
  | [] => 0
  | c :: rest =>
      let g1 := audgui_simple_message gettext g c.type c.title c.text
      (if (box g1).map Prod.fst = (box g).map Prod.fst then 0 else 1) + changes gettext g1 rest

/-- One call on an open box, seen on the text and the counter alone.  This
is the abstraction that the lemmas on runs go through; `box_open` relates it
to the code. -/
def box_step (gettext : CStr → CStr) (b : Option CStr × Int) (text : CStr) :
    Option CStr × Int :=
  match b.1 with
  | none => b
  | some old =>
      if (if b.2 > 10 then placeholder gettext else text) <:+: old then b
      else (some (old ++ "\n".toList ++ (if b.2 > 10 then placeholder gettext else text)),
            int_add b.2 1)

/-- A run on an open box, seen on the text and the counter alone. -/
def box_run (gettext : CStr → CStr) (b : Option CStr × Int) : List Call → Option CStr × Int
  | [] => b
  | c :: rest => box_run gettext (box_step gettext b c.text) rest

/-- The number of steps of a run that change the text. -/
def box_changes (gettext : CStr → CStr) (b : Option CStr × Int) : List Call → Nat
  | [] => 0
  | c :: rest =>
      (if (box_step gettext b c.text).1 = b.1 then 0 else 1)
        + box_changes gettext (box_step gettext b c.text) rest

/-- The invariant of the box: a text is present, the counter lies between 1
and 12, and at 12 the placeholder is in the text. -/
def BoxInv (gettext : CStr → CStr) (b : Option CStr × Int) : Prop :=
  ∃ old, b.1 = some old ∧ 1 ≤ b.2 ∧ b.2 ≤ 12 ∧ (b.2 = 12 → placeholder gettext <:+: old)

/-- The "clicked" connection that `audgui_dialog_new` makes on a button. -/
def destroy_on_click (dialog : Nat) : SignalHandler :=
  ⟨"clicked", GCallback.gtk_widget_destroy, some dialog, true⟩

/-! ## Example states -/

/-- An open message box with the given text property and counter. -/
def example_dialog (text : Option CStr) (messages : Int) : GtkWidget :=
  { gtk_message_dialog_new 1 GtkMessageType.GTK_MESSAGE_INFO [] with
    text := text, messages := messages, visible := true }

/-- A state whose slot holds `example_dialog text messages`. -/
def example_gui (text : Option CStr) (messages : Int) : Gui :=
  { allocated := 2, slot := 0, widget := some (example_dialog text messages) }

/-- A measurement of layouts: 61 pixels for a bold layout, 57 otherwise. -/
def example_measure (layout : PangoLayout) : Int :=
  if layout.bold then 61 else 57

/-- A plain button with the given handle. -/
def example_button (handle : Nat) : GtkButton :=
  gtk_button_new_with_mnemonic handle "ok".toList

/-- Eleven calls with the texts "b" to "l". -/
def example_calls : List Call :=
  ["b", "c", "d", "e", "f", "g", "h", "i", "j", "k", "l"].map
    (fun t => ⟨GtkMessageType.GTK_MESSAGE_INFO, "t".toList, t.toList⟩)

/-! ## Lemmas -/

theorem strstr_isSome_iff (hay needle : CStr) :
    (strstr hay needle).isSome = true ↔ needle <:+: hay := by
  induction hay with
  | nil =>
      unfold strstr
      by_cases h : needle.isPrefixOf [] = true
      · have h1 : needle <+: [] := List.isPrefixOf_iff_prefix.mp h
        simp [h, h1.isInfix]
      · have h1 : ¬ needle <:+: [] := by
          intro hi
          have : needle = [] := List.infix_nil.mp hi
          subst this
          exact h (by rfl)
        simp [h, h1]
  | cons c rest ih =>
      unfold strstr
      rw [List.infix_cons_iff]
      by_cases h : needle.isPrefixOf (c :: rest) = true
      · have h1 : needle <+: c :: rest := List.isPrefixOf_iff_prefix.mp h
        simp [h, h1]
      · have h1 : ¬ needle <+: c :: rest := fun hp => h (List.isPrefixOf_iff_prefix.mpr hp)
        simp only [h, h1, false_or]
        simpa using ih

theorem strstr_isNone_iff (hay needle : CStr) :
    (strstr hay needle).isNone = true ↔ ¬ needle <:+: hay := by
  rw [← strstr_isSome_iff]
  cases strstr hay needle <;> simp

theorem str_concat_three (a b c : CStr) : str_concat [a, b, c] = a ++ b ++ c := by
  simp [str_concat]

/-- The open-dialog branch of `audgui_simple_message` in closed form. -/
theorem simple_message_open (gettext : CStr → CStr) (g : Gui) (type : GtkMessageType)
    (title text : CStr) (w : GtkWidget) (old : CStr)
    (hw : g.widget = some w) (ht : w.text = some old) :
    audgui_simple_message gettext g type title text =
      { g with widget := some (gtk_window_present
          (if (if w.messages > 10 then placeholder gettext else text) <:+: old then w
           else { w with
                  text := some (old ++ "\n".toList ++
                    (if w.messages > 10 then placeholder gettext else text)),
                  messages := int_add w.messages 1 })) } := by
  unfold audgui_simple_message
  simp only [hw, ht, str_concat_three]
  by_cases h : (if w.messages > 10 then placeholder gettext else text) <:+: old
  · have h2 := (strstr_isSome_iff old _).mpr h
    have h3 : (strstr old (if w.messages > 10 then gettext hidden_msgid else text)).isNone
        = false := by
      simpa [placeholder, Option.isNone_iff_eq_none, Option.isSome_iff_exists] using h2
    simp only [placeholder] at h
    simp [h3, h, placeholder]
  · have h3 := (strstr_isNone_iff old _).mpr h
    simp only [placeholder] at h h3
    simp [h3, h, placeholder]

theorem int_add_exact (i : Int) (k : Nat) (h : i + k ≤ INT_MAX) : int_add i k = i + k := by
  unfold int_add
  rw [if_neg (by omega)]

theorem simple_message_guard (gettext : CStr → CStr) (g : Gui)
    (type : GtkMessageType) (title T : CStr) (w : GtkWidget)
    (hw : g.widget = some w) (ht : w.text = none) :
    audgui_simple_message gettext g type title T = g := by
  unfold audgui_simple_message
  simp only [hw, ht]

theorem box_open (gettext : CStr → CStr) (g : Gui) (type : GtkMessageType)
    (title text : CStr) (b : Option CStr × Int) (hb : box g = some b) :
    box (audgui_simple_message gettext g type title text) = some (box_step gettext b text) := by
  obtain ⟨a, sl, wd⟩ := g
  cases wd with
  | none => simp [box] at hb
  | some w =>
      simp only [box, Option.map_some', Option.some.injEq] at hb
      subst hb
      cases ht : w.text with
      | none =>
          rw [simple_message_guard gettext _ type title text w rfl ht]
          simp [box, box_step, ht]
      | some old =>
          rw [simple_message_open gettext _ type title text w old rfl ht]
          simp only [box, box_step, ht, Option.map_some']
          split_ifs <;> simp [gtk_window_present, ht]

theorem audgui_dialog_new_text (handle : Nat) (type : GtkMessageType) (title text : CStr)
    (button1 : GtkButton) (button2 : Option GtkButton) :
    (audgui_dialog_new handle type title text button1 button2).text = some text := by
  cases type <;> cases button2 <;> rfl

theorem box_closed (gettext : CStr → CStr) (g : Gui) (type : GtkMessageType)
    (title text : CStr) (hw : g.widget = none) :
    box (audgui_simple_message gettext g type title text) = some (some text, 1) := by
  unfold audgui_simple_message
  simp only [hw]
  simp [box, gtk_widget_show_all, g_signal_connect, audgui_dialog_new_text]

theorem box_of_run (gettext : CStr → CStr) (calls : List Call) :
    ∀ (g : Gui) (b : Option CStr × Int), box g = some b →
      box (run gettext g calls) = some (box_run gettext b calls) := by
  induction calls with
  | nil => intro g b hb; simpa [run, box_run] using hb
  | cons c rest ih =>
      intro g b hb
      simp only [run, box_run]
      exact ih _ _ (box_open gettext g c.type c.title c.text b hb)

theorem changes_of_run (gettext : CStr → CStr) (calls : List Call) :
    ∀ (g : Gui) (b : Option CStr × Int), box g = some b →
      changes gettext g calls = box_changes gettext b calls := by
  induction calls with
  | nil => intro g b _; rfl
  | cons c rest ih =>
      intro g b hb
      have h1 := box_open gettext g c.type c.title c.text b hb
      simp only [changes, box_changes]
      rw [ih _ _ h1, h1, hb]
      simp

theorem append_ne_self (old x : CStr) : old ++ "\n".toList ++ x ≠ old := by
  intro h
  have := congrArg List.length h
  simp at this

theorem infix_appended (old x : CStr) : x <:+: old ++ "\n".toList ++ x :=
  (List.suffix_append _ _).isInfix

/-- A step from a state of the invariant: either nothing changes, or the text
changes and the counter goes up by one; the invariant holds afterwards. -/
theorem box_step_inv (gettext : CStr → CStr) (b : Option CStr × Int) (text : CStr)
    (hb : BoxInv gettext b) :
    BoxInv gettext (box_step gettext b text)
      ∧ ((box_step gettext b text = b)
          ∨ ((box_step gettext b text).1 ≠ b.1 ∧ (box_step gettext b text).2 = b.2 + 1)) := by
  obtain ⟨t, m⟩ := b
  obtain ⟨old, ht, h1, h12, hP⟩ := hb
  simp only at ht h1 h12 hP
  subst ht
  simp only [box_step]
  by_cases hin : (if m > 10 then placeholder gettext else text) <:+: old
  · rw [if_pos hin]
    exact ⟨⟨old, rfl, h1, h12, hP⟩, Or.inl rfl⟩
  · rw [if_neg hin]
    have hadd : int_add m 1 = m + 1 := int_add_exact m 1 (by simp only [INT_MAX]; omega)
    rw [hadd]
    refine ⟨?_, Or.inr ⟨?_, rfl⟩⟩
    · by_cases hm : m > 10
      · simp only [hm, if_true] at hin ⊢
        have hne : m ≠ 12 := fun h => hin (hP h)
        exact ⟨_, rfl, by simp only; omega, by simp only; omega,
          fun _ => infix_appended old (placeholder gettext)⟩
      · exact ⟨_, rfl, by simp only; omega, by simp only; omega,
          fun h => by simp only at h; omega⟩
    · simp only [ne_eq, Option.some.injEq]
      exact append_ne_self old _

theorem box_run_inv (gettext : CStr → CStr) (calls : List Call) :
    ∀ b : Option CStr × Int, BoxInv gettext b →
      BoxInv gettext (box_run gettext b calls)
        ∧ (box_run gettext b calls).2 = b.2 + box_changes gettext b calls := by
  induction calls with
  | nil => intro b hb; exact ⟨hb, by simp [box_run, box_changes]⟩
  | cons c rest ih =>
      intro b hb
      obtain ⟨hinv, hstep⟩ := box_step_inv gettext b c.text hb
      obtain ⟨h1, h2⟩ := ih _ hinv
      refine ⟨h1, ?_⟩
      simp only [box_run, box_changes]
      rw [h2]
      rcases hstep with h | ⟨hne, hm⟩
      · rw [h]; simp
      · rw [hm, if_neg hne]; push_cast; omega

/-- Once the counter is past ten and the placeholder is in the text, a step
changes nothing. -/
theorem box_step_hidden (gettext : CStr → CStr) (old : CStr) (m : Int) (text : CStr)
    (hm : m > 10) (hP : placeholder gettext <:+: old) :
    box_step gettext (some old, m) text = (some old, m) := by
  simp [box_step, hm, hP]

theorem box_run_hidden (gettext : CStr → CStr) (old : CStr) (m : Int)
    (hm : m > 10) (hP : placeholder gettext <:+: old) (calls : List Call) :
    box_run gettext (some old, m) calls = (some old, m)
      ∧ box_changes gettext (some old, m) calls = 0 := by
  induction calls with
  | nil => exact ⟨rfl, rfl⟩
  | cons c rest ih =>
      simp only [box_run, box_changes, box_step_hidden gettext old m c.text hm hP]
      exact ⟨ih.1, by simp [ih.2]⟩

theorem box_step_twice (gettext : CStr → CStr) (old : CStr) (m : Int) (T : CStr)
    (hm : m < INT_MAX) :
    box_step gettext (box_step gettext (some old, m) T) T = box_step gettext (some old, m) T
      ↔ ¬ (m = 10 ∧ ¬ T <:+: old ∧ ¬ placeholder gettext <:+: old ++ "\n".toList ++ T) := by
  have hadd : int_add m 1 = m + 1 := int_add_exact m 1 (by simp only [INT_MAX] at *; omega)
  by_cases h10 : m > 10
  · by_cases hP : placeholder gettext <:+: old
    · have e : box_step gettext (some old, m) T = (some old, m) := by
        simp [box_step, h10, hP]
      rw [e, e]
      exact iff_of_true rfl (fun hbad => absurd hbad.1 (by omega))
    · have e : box_step gettext (some old, m) T
          = (some (old ++ "\n".toList ++ placeholder gettext), m + 1) := by
        simp [box_step, h10, hP, hadd]
      have h11 : m + 1 > 10 := by omega
      have e2 : box_step gettext (some (old ++ "\n".toList ++ placeholder gettext), m + 1) T
          = (some (old ++ "\n".toList ++ placeholder gettext), m + 1) :=
        box_step_hidden gettext _ _ T h11 (infix_appended old _)
      rw [e, e2]
      exact iff_of_true rfl (fun hbad => absurd hbad.1 (by omega))
  · by_cases hT : T <:+: old
    · have e : box_step gettext (some old, m) T = (some old, m) := by
        simp [box_step, h10, hT]
      rw [e, e]
      exact iff_of_true rfl (fun hbad => hbad.2.1 hT)
    · have e : box_step gettext (some old, m) T
          = (some (old ++ "\n".toList ++ T), m + 1) := by
        simp [box_step, h10, hT, hadd]
      rw [e]
      by_cases h11 : m + 1 > 10
      · have hm10 : m = 10 := by omega
        by_cases hP : placeholder gettext <:+: old ++ "\n".toList ++ T
        · rw [box_step_hidden gettext _ _ T h11 hP]
          exact iff_of_true rfl (fun hbad => hbad.2.2 hP)
        · refine iff_of_false ?_ (fun hn => hn ⟨hm10, hT, hP⟩)
          intro heq
          have h1 := congrArg Prod.fst heq
          simp only [box_step, h11, if_true, hP, if_false, Option.some.injEq] at h1
          exact append_ne_self _ _ h1
      · have e2 : box_step gettext (some (old ++ "\n".toList ++ T), m + 1) T
            = (some (old ++ "\n".toList ++ T), m + 1) := by
          simp only [box_step, h11, if_false, infix_appended old T, if_true]
        rw [e2]
        exact iff_of_true rfl (fun hbad => absurd hbad.1 (by omega))

theorem box_run_same_text (gettext : CStr → CStr) (T : CStr) (calls : List Call)
    (h : ∀ c ∈ calls, c.text = T) :
    box_run gettext (some T, 1) calls = (some T, 1) := by
  induction calls with
  | nil => rfl
  | cons c rest ih =>
      have hc : c.text = T := h c (List.mem_cons_self _ _)
      have e : box_step gettext (some T, 1) c.text = (some T, 1) := by
        simp [box_step, hc]
      simp only [box_run, e]
      exact ih (fun d hd => h d (List.mem_cons_of_mem _ hd))

theorem boxInv_created (gettext : CStr → CStr) (T : CStr) : BoxInv gettext (some T, 1) :=
  ⟨T, rfl, by simp, by simp, by simp⟩

theorem clicked_fold (hs : List SignalHandler) :
    ∀ d : GtkWidget, (hs.foldl run_clicked_handler d).handle = d.handle
      ∧ (d.destroyed = true → (hs.foldl run_clicked_handler d).destroyed = true) := by
  induction hs with
  | nil => intro d; exact ⟨rfl, id⟩
  | cons h rest ih =>
      intro d
      simp only [List.foldl_cons]
      obtain ⟨h1, h2⟩ := ih (run_clicked_handler d h)
      have e1 : (run_clicked_handler d h).handle = d.handle := by
        unfold run_clicked_handler; split <;> rfl
      have e2 : d.destroyed = true → (run_clicked_handler d h).destroyed = true := by
        intro hd; unfold run_clicked_handler; split
        · rfl
        · exact hd
      exact ⟨h1.trans e1, fun hd => h2 (e2 hd)⟩

/-- A button that carries `gtk_widget_destroy` on "clicked" with the dialog
as data destroys the dialog when clicked. -/
theorem clicked_destroys (d : GtkWidget) (b : GtkButton) (sw : Bool)
    (hmem : (⟨"clicked", GCallback.gtk_widget_destroy, some d.handle, sw⟩ : SignalHandler)
      ∈ b.handlers) :
    (gtk_button_clicked d b).destroyed = true := by
  unfold gtk_button_clicked
  generalize b.handlers = hs at hmem
  induction hs generalizing d with
  | nil => simp at hmem
  | cons h rest ih =>
      simp only [List.foldl_cons]
      rcases List.mem_cons.mp hmem with heq | hin
      · have e : (run_clicked_handler d h).destroyed = true := by
          subst heq
          simp [run_clicked_handler, gtk_widget_destroy]
        exact (clicked_fold rest _).2 e
      · have e1 : (run_clicked_handler d h).handle = d.handle := by
          unfold run_clicked_handler; split <;> rfl
        exact ih _ (by rw [e1]; exact hin)

/-- Two calls against one, on the text and the counter: they agree in every
state with the counter below `INT_MAX` but the one at the threshold. -/
theorem simple_message_twice_iff (gettext : CStr → CStr) (g : Gui)
    (type : GtkMessageType) (title T : CStr)
    (hrange : ∀ w, g.widget = some w → w.messages < INT_MAX) :
    box (audgui_simple_message gettext (audgui_simple_message gettext g type title T)
          type title T)
        = box (audgui_simple_message gettext g type title T)
      ↔ ¬ ∃ w old, g.widget = some w ∧ w.text = some old ∧ w.messages = 10
            ∧ ¬ T <:+: old ∧ ¬ placeholder gettext <:+: old ++ "\n".toList ++ T := by
  cases hw : g.widget with
  | none =>
      have h1 := box_closed gettext g type title T hw
      have h2 := box_open gettext _ type title T _ h1
      have e : box_step gettext (some T, 1) T = (some T, 1) := by simp [box_step]
      rw [h2, h1, e]
      simp
  | some w =>
      have hb : box g = some (w.text, w.messages) := by simp [box, hw]
      have h1 := box_open gettext g type title T _ hb
      have h2 := box_open gettext _ type title T _ h1
      rw [h2, h1]
      cases ht : w.text with
      | none =>
          have e : box_step gettext (none, w.messages) T = (none, w.messages) := rfl
          rw [e, e]
          simp [ht]
      | some old =>
          rw [Option.some.injEq, box_step_twice gettext old w.messages T (hrange w hw)]
          constructor
          · rintro hn ⟨w1, old1, hw1, ht1, hm, hT, hP⟩
            cases hw1
            rw [ht] at ht1
            cases ht1
            exact hn ⟨hm, hT, hP⟩
          · rintro hn ⟨hm, hT, hP⟩
            exact hn ⟨w, old, rfl, ht, hm, hT, hP⟩

/-- Two calls at the threshold: with the counter at 10, `T` not in the text
and the placeholder not in the text with `T` appended, the first call appends
`T` and counts 11, the second appends the placeholder and counts 12. -/
theorem simple_message_twice_threshold (gettext : CStr → CStr) (g : Gui)
    (type : GtkMessageType) (title T : CStr) (w : GtkWidget) (old : CStr)
    (hw : g.widget = some w) (ht : w.text = some old) (hm : w.messages = 10)
    (hT : ¬ T <:+: old) (hP : ¬ placeholder gettext <:+: old ++ "\n".toList ++ T) :
    box (audgui_simple_message gettext g type title T)
        = some (some (old ++ "\n".toList ++ T), 11)
      ∧ box (audgui_simple_message gettext (audgui_simple_message gettext g type title T)
          type title T)
        = some (some (old ++ "\n".toList ++ T ++ "\n".toList ++ placeholder gettext), 12) := by
  have hb : box g = some (some old, 10) := by simp [box, hw, ht, hm]
  have e1 : box_step gettext (some old, 10) T = (some (old ++ "\n".toList ++ T), 11) := by
    have hadd : int_add 10 1 = 11 := by decide
    simp [box_step, hT, hadd]
  have e2 : box_step gettext (some (old ++ "\n".toList ++ T), 11) T
      = (some (old ++ "\n".toList ++ T ++ "\n".toList ++ placeholder gettext), 12) := by
    have hadd : int_add 11 1 = 12 := by decide
    have hP2 : ¬ placeholder gettext <:+: old ++ '\n' :: T := by simpa using hP
    simp [box_step, hP2, hadd]
  have h1 := box_open gettext g type title T _ hb
  have h2 := box_open gettext _ type title T _ h1
  rw [e1] at h1 h2
  rw [e2] at h2
  exact ⟨h1, h2⟩

/-! ## The claims -/

/-- C2: on an open dialog whose text is present and already contains the
message text `T`, and whose "messages" counter is at most 10,
`audgui_simple_message` with `T` leaves the text and the counter as they are;
the only effect is that the window is presented again. -/
theorem C2_repeated_message_not_duplicated (gettext : CStr → CStr) (g : Gui)
    (type : GtkMessageType) (title T : CStr) (w : GtkWidget) (old : CStr)
    (hw : g.widget = some w) (ht : w.text = some old)
    (hsub : T <:+: old) (hm : w.messages ≤ 10) :
    audgui_simple_message gettext g type title T
        = { g with widget := some (gtk_window_present w) }
      ∧ box (audgui_simple_message gettext g type title T) = some (some old, w.messages)
      ∧ (gtk_window_present w).text = w.text
      ∧ (gtk_window_present w).messages = w.messages := by
  have hnot : ¬ w.messages > 10 := by omega
  have h := simple_message_open gettext g type title T w old hw ht
  simp only [hnot, if_false, hsub, if_true] at h
  refine ⟨h, ?_, rfl, rfl⟩
  rw [h]
  simp [box, gtk_window_present, ht]

theorem C2_witness :
    audgui_simple_message id (example_gui (some "ab".toList) 3)
        GtkMessageType.GTK_MESSAGE_INFO "t".toList "b".toList
      = { example_gui (some "ab".toList) 3 with
          widget := some (gtk_window_present (example_dialog (some "ab".toList) 3)) }
    ∧ box (audgui_simple_message id (example_gui (some "ab".toList) 3)
        GtkMessageType.GTK_MESSAGE_INFO "t".toList "b".toList) = some (some "ab".toList, 3)
    ∧ (gtk_window_present (example_dialog (some "ab".toList) 3)).text
        = (example_dialog (some "ab".toList) 3).text
    ∧ (gtk_window_present (example_dialog (some "ab".toList) 3)).messages
        = (example_dialog (some "ab".toList) 3).messages :=
  C2_repeated_message_not_duplicated id (example_gui (some "ab".toList) 3)
    GtkMessageType.GTK_MESSAGE_INFO "t".toList "b".toList
    (example_dialog (some "ab".toList) 3) "ab".toList rfl rfl (by decide) (by decide)

/-- C3: on an open dialog with text `old` and counter `m ≤ 10`, a message text
`T` that does not occur in `old` sets the text to `old ++ "\n" ++ T` and the
counter to `m + 1`; the slot still holds the same dialog (same handle, every
other property as before, presented once more) and no object is created. -/
theorem C3_new_message_appended (gettext : CStr → CStr) (g : Gui)
    (type : GtkMessageType) (title T : CStr) (w : GtkWidget) (old : CStr)
    (hw : g.widget = some w) (ht : w.text = some old)
    (hm : w.messages ≤ 10) (hsub : ¬ T <:+: old) :
    audgui_simple_message gettext g type title T
        = { g with widget := some (gtk_window_present
              { w with text := some (old ++ "\n".toList ++ T), messages := w.messages + 1 }) }
      ∧ box (audgui_simple_message gettext g type title T)
          = some (some (old ++ "\n".toList ++ T), w.messages + 1)
      ∧ (audgui_simple_message gettext g type title T).widget.map GtkWidget.handle
          = some w.handle
      ∧ (audgui_simple_message gettext g type title T).allocated = g.allocated := by
  have hnot : ¬ w.messages > 10 := by omega
  have hadd : int_add w.messages 1 = w.messages + 1 :=
    int_add_exact w.messages 1 (by simp only [INT_MAX]; omega)
  have h := simple_message_open gettext g type title T w old hw ht
  simp only [hnot, if_false, hsub, hadd] at h
  rw [h]
  simp [box, gtk_window_present]

theorem C3_witness :
    audgui_simple_message id (example_gui (some "ab".toList) 10)
        GtkMessageType.GTK_MESSAGE_INFO "t".toList "c".toList
      = { example_gui (some "ab".toList) 10 with widget := some (gtk_window_present
            { example_dialog (some "ab".toList) 10 with
              text := some ("ab".toList ++ "\n".toList ++ "c".toList),
              messages := (example_dialog (some "ab".toList) 10).messages + 1 }) }
    ∧ box (audgui_simple_message id (example_gui (some "ab".toList) 10)
        GtkMessageType.GTK_MESSAGE_INFO "t".toList "c".toList)
        = some (some ("ab".toList ++ "\n".toList ++ "c".toList),
            (example_dialog (some "ab".toList) 10).messages + 1)
    ∧ (audgui_simple_message id (example_gui (some "ab".toList) 10)
        GtkMessageType.GTK_MESSAGE_INFO "t".toList "c".toList).widget.map GtkWidget.handle
        = some (example_dialog (some "ab".toList) 10).handle
    ∧ (audgui_simple_message id (example_gui (some "ab".toList) 10)
        GtkMessageType.GTK_MESSAGE_INFO "t".toList "c".toList).allocated
        = (example_gui (some "ab".toList) 10).allocated :=
  C3_new_message_appended id (example_gui (some "ab".toList) 10)
    GtkMessageType.GTK_MESSAGE_INFO "t".toList "c".toList
    (example_dialog (some "ab".toList) 10) "ab".toList rfl rfl (by decide) (by decide)

/-- C4: on an open dialog with text `old` and counter `m > 10` the text passed
is never appended: whatever `T` is, the text afterwards is `old` when `old`
already contains the placeholder, and `old ++ "\n" ++ placeholder` otherwise. -/
theorem C4_over_ten_only_placeholder (gettext : CStr → CStr) (g : Gui)
    (type : GtkMessageType) (title T : CStr) (w : GtkWidget) (old : CStr)
    (hw : g.widget = some w) (ht : w.text = some old) (hm : w.messages > 10) :
    (placeholder gettext <:+: old →
        (box (audgui_simple_message gettext g type title T)).map Prod.fst = some (some old))
      ∧ (¬ placeholder gettext <:+: old →
        (box (audgui_simple_message gettext g type title T)).map Prod.fst
          = some (some (old ++ "\n".toList ++ placeholder gettext))) := by
  have h := simple_message_open gettext g type title T w old hw ht
  simp only [hm, if_true] at h
  rw [h]
  constructor
  · intro hp
    simp [box, gtk_window_present, hp, ht]
  · intro hp
    simp [box, gtk_window_present, hp]

theorem C4_witness :
    (placeholder id <:+: "ab".toList →
        (box (audgui_simple_message id (example_gui (some "ab".toList) 11)
          GtkMessageType.GTK_MESSAGE_INFO "t".toList "c".toList)).map Prod.fst
          = some (some "ab".toList))
      ∧ (¬ placeholder id <:+: "ab".toList →
        (box (audgui_simple_message id (example_gui (some "ab".toList) 11)
          GtkMessageType.GTK_MESSAGE_INFO "t".toList "c".toList)).map Prod.fst
          = some (some ("ab".toList ++ "\n".toList ++ placeholder id))) :=
  C4_over_ten_only_placeholder id (example_gui (some "ab".toList) 11)
    GtkMessageType.GTK_MESSAGE_INFO "t".toList "c".toList
    (example_dialog (some "ab".toList) 11) "ab".toList rfl rfl (by decide)

/-- C6: on an open dialog whose "text" property reads back as absent,
`audgui_simple_message` returns at the guard with the state as it was: no text
is set, the counter and the slot are untouched and the window is not
presented. -/
theorem C6_absent_text_guard (gettext : CStr → CStr) (g : Gui)
    (type : GtkMessageType) (title T : CStr) (w : GtkWidget)
    (hw : g.widget = some w) (ht : w.text = none) :
    audgui_simple_message gettext g type title T = g := by
  unfold audgui_simple_message
  simp only [hw, ht]

theorem C6_witness :
    audgui_simple_message id (example_gui none 3)
        GtkMessageType.GTK_MESSAGE_INFO "t".toList "c".toList = example_gui none 3 :=
  C6_absent_text_guard id (example_gui none 3)
    GtkMessageType.GTK_MESSAGE_INFO "t".toList "c".toList (example_dialog none 3) rfl rfl

/-- C1 (as the code has it): two calls in succession with the same arguments
leave the text and the counter as one call leaves them in every state but
one: an open dialog whose counter is exactly 10 while `T` is not in its text
`old` and the placeholder is not in `old ++ "\n" ++ T`.  In that state the
first call appends `T` and raises the counter to 11, and the second call
appends the placeholder and raises the counter to 12.  The counter is taken
below `INT_MAX`; at `INT_MAX` the sum `messages + 1` overflows, and the
statement says nothing of that state. -/
theorem C1_idempotent_except_at_threshold (gettext : CStr → CStr) (g : Gui)
    (type : GtkMessageType) (title T : CStr)
    (hrange : ∀ w, g.widget = some w → w.messages < INT_MAX) :
    (box (audgui_simple_message gettext (audgui_simple_message gettext g type title T)
          type title T)
        = box (audgui_simple_message gettext g type title T)
      ↔ ¬ ∃ w old, g.widget = some w ∧ w.text = some old ∧ w.messages = 10
            ∧ ¬ T <:+: old ∧ ¬ placeholder gettext <:+: old ++ "\n".toList ++ T)
    ∧ (∀ w old, g.widget = some w → w.text = some old → w.messages = 10 →
        ¬ T <:+: old → ¬ placeholder gettext <:+: old ++ "\n".toList ++ T →
        box (audgui_simple_message gettext g type title T)
            = some (some (old ++ "\n".toList ++ T), 11)
          ∧ box (audgui_simple_message gettext
              (audgui_simple_message gettext g type title T) type title T)
            = some (some (old ++ "\n".toList ++ T ++ "\n".toList ++ placeholder gettext),
                12)) :=
  ⟨simple_message_twice_iff gettext g type title T hrange,
    fun w old hw ht hm hT hP =>
      simple_message_twice_threshold gettext g type title T w old hw ht hm hT hP⟩

theorem C1_witness :
    (box (audgui_simple_message id (audgui_simple_message id (example_gui (some "ab".toList) 9)
          GtkMessageType.GTK_MESSAGE_INFO "t".toList "c".toList)
          GtkMessageType.GTK_MESSAGE_INFO "t".toList "c".toList)
        = box (audgui_simple_message id (example_gui (some "ab".toList) 9)
          GtkMessageType.GTK_MESSAGE_INFO "t".toList "c".toList))
    ∧ (box (audgui_simple_message id (example_gui (some "a".toList) 10)
          GtkMessageType.GTK_MESSAGE_INFO "t".toList "b".toList)
        = some (some ("a".toList ++ "\n".toList ++ "b".toList), 11)
      ∧ box (audgui_simple_message id (audgui_simple_message id
          (example_gui (some "a".toList) 10)
          GtkMessageType.GTK_MESSAGE_INFO "t".toList "b".toList)
          GtkMessageType.GTK_MESSAGE_INFO "t".toList "b".toList)
        = some (some ("a".toList ++ "\n".toList ++ "b".toList ++ "\n".toList
            ++ placeholder id), 12)) :=
  ⟨(C1_idempotent_except_at_threshold id (example_gui (some "ab".toList) 9)
      GtkMessageType.GTK_MESSAGE_INFO "t".toList "c".toList
      (by intro w hw; cases hw; decide)).1.mpr
      (by
        rintro ⟨w, old, hw, _, hm, _⟩
        cases hw
        revert hm
        decide),
    (C1_idempotent_except_at_threshold id (example_gui (some "a".toList) 10)
      GtkMessageType.GTK_MESSAGE_INFO "t".toList "b".toList
      (by intro w hw; cases hw; decide)).2
      (example_dialog (some "a".toList) 10) "a".toList rfl rfl rfl (by decide) (by decide)⟩

/-- C1 fails as stated, at two states.  On an open dialog with text "a" and
counter 10, one call with "b" gives the text "a\nb" and the counter 11, and a
second call with the same arguments appends the placeholder and counts 12.
On an open dialog with text "a" and counter `INT_MAX`, one call with "z"
appends the placeholder and the sum `messages + 1` overflows (the two's
complement result is `INT_MIN`), and a second call with the same arguments,
the counter now being below ten, appends "z". -/
theorem C1_counterexample :
    box (audgui_simple_message id (example_gui (some "a".toList) 10)
        GtkMessageType.GTK_MESSAGE_INFO "t".toList "b".toList)
      = some (some "a\nb".toList, 11)
    ∧ box (audgui_simple_message id
        (audgui_simple_message id (example_gui (some "a".toList) 10)
          GtkMessageType.GTK_MESSAGE_INFO "t".toList "b".toList)
        GtkMessageType.GTK_MESSAGE_INFO "t".toList "b".toList)
      = some (some "a\nb\n\n(Further messages have been hidden.)".toList, 12)
    ∧ box (audgui_simple_message id
        (audgui_simple_message id (example_gui (some "a".toList) 10)
          GtkMessageType.GTK_MESSAGE_INFO "t".toList "b".toList)
        GtkMessageType.GTK_MESSAGE_INFO "t".toList "b".toList)
      ≠ box (audgui_simple_message id (example_gui (some "a".toList) 10)
        GtkMessageType.GTK_MESSAGE_INFO "t".toList "b".toList)
    ∧ box (audgui_simple_message id (example_gui (some "a".toList) 2147483647)
        GtkMessageType.GTK_MESSAGE_INFO "t".toList "z".toList)
      = some (some "a\n\n(Further messages have been hidden.)".toList, -2147483648)
    ∧ box (audgui_simple_message id
        (audgui_simple_message id (example_gui (some "a".toList) 2147483647)
          GtkMessageType.GTK_MESSAGE_INFO "t".toList "z".toList)
        GtkMessageType.GTK_MESSAGE_INFO "t".toList "z".toList)
      = some (some "a\n\n(Further messages have been hidden.)\nz".toList, -2147483647)
    ∧ box (audgui_simple_message id
        (audgui_simple_message id (example_gui (some "a".toList) 2147483647)
          GtkMessageType.GTK_MESSAGE_INFO "t".toList "z".toList)
        GtkMessageType.GTK_MESSAGE_INFO "t".toList "z".toList)
      ≠ box (audgui_simple_message id (example_gui (some "a".toList) 2147483647)
        GtkMessageType.GTK_MESSAGE_INFO "t".toList "z".toList) := by
  decide

/-- C5 (as the code has it): the counter counts the calls that appended text,
not the calls.  After a dialog is created with `T`, any number of further
calls with the same `T` leave the text at `T` and the counter at 1.  The
counter exceeds ten exactly when ten of the further calls have changed the
text, and then the next call, whatever text it passes, leaves the text as it
is if the placeholder is already in it and appends the placeholder
otherwise. -/
theorem C5_placeholder_after_ten_appended (gettext : CStr → CStr) (a s : Nat)
    (type : GtkMessageType) (title T : CStr) :
    (∀ calls : List Call, (∀ c ∈ calls, c.text = T) →
        box (run gettext (audgui_simple_message gettext ⟨a, s, none⟩ type title T) calls)
          = some (some T, 1))
      ∧ (∀ calls : List Call, ∃ old m,
          box (run gettext (audgui_simple_message gettext ⟨a, s, none⟩ type title T) calls)
            = some (some old, m)
          ∧ (m > 10 ↔
              10 ≤ changes gettext (audgui_simple_message gettext ⟨a, s, none⟩ type title T)
                calls)
          ∧ (m > 10 → ∀ (type1 : GtkMessageType) (title1 T1 : CStr),
              (box (audgui_simple_message gettext
                  (run gettext (audgui_simple_message gettext ⟨a, s, none⟩ type title T) calls)
                  type1 title1 T1)).map Prod.fst
                = some (some (if placeholder gettext <:+: old then old
                              else old ++ "\n".toList ++ placeholder gettext)))) := by
  have h1 : box (audgui_simple_message gettext ⟨a, s, none⟩ type title T) = some (some T, 1) :=
    box_closed gettext _ type title T rfl
  constructor
  · intro calls hc
    rw [box_of_run gettext calls _ _ h1, box_run_same_text gettext T calls hc]
  · intro calls
    have hrun := box_of_run gettext calls _ _ h1
    have hch := changes_of_run gettext calls _ _ h1
    obtain ⟨⟨old, ht, _, _, _⟩, hcount⟩ := box_run_inv gettext calls _ (boxInv_created gettext T)
    refine ⟨old, (box_run gettext (some T, 1) calls).2, ?_, ?_, ?_⟩
    · rw [hrun, ← ht]
    · rw [hch, hcount]
      simp only
      omega
    · intro hm type1 title1 T1
      rw [box_open gettext _ type1 title1 T1 _ hrun]
      simp only [Option.map_some', box_step, ht, hm, if_true]
      by_cases hP : placeholder gettext <:+: old
      · simp [hP, ht]
      · simp [hP]

theorem C5_witness :
    (∀ calls : List Call, (∀ c ∈ calls, c.text = "a".toList) →
        box (run id (audgui_simple_message id ⟨0, 0, none⟩
            GtkMessageType.GTK_MESSAGE_INFO "t".toList "a".toList) calls)
          = some (some "a".toList, 1))
      ∧ (∀ calls : List Call, ∃ old m,
          box (run id (audgui_simple_message id ⟨0, 0, none⟩
            GtkMessageType.GTK_MESSAGE_INFO "t".toList "a".toList) calls)
            = some (some old, m)
          ∧ (m > 10 ↔
              10 ≤ changes id (audgui_simple_message id ⟨0, 0, none⟩
                GtkMessageType.GTK_MESSAGE_INFO "t".toList "a".toList) calls)
          ∧ (m > 10 → ∀ (type1 : GtkMessageType) (title1 T1 : CStr),
              (box (audgui_simple_message id
                  (run id (audgui_simple_message id ⟨0, 0, none⟩
                    GtkMessageType.GTK_MESSAGE_INFO "t".toList "a".toList) calls)
                  type1 title1 T1)).map Prod.fst
                = some (some (if placeholder id <:+: old then old
                              else old ++ "\n".toList ++ placeholder id)))) :=
  C5_placeholder_after_ten_appended id 0 0 GtkMessageType.GTK_MESSAGE_INFO
    "t".toList "a".toList

/-- C5 fails as stated: a dialog is created with "a" and the call is repeated
eleven more times with "a"; the counter is still 1, and the next call, with
"b", appends "b" and no placeholder. -/
theorem C5_counterexample :
    box (run id (audgui_simple_message id ⟨0, 0, none⟩
        GtkMessageType.GTK_MESSAGE_INFO "t".toList "a".toList)
        (List.replicate 11 ⟨GtkMessageType.GTK_MESSAGE_INFO, "t".toList, "a".toList⟩))
      = some (some "a".toList, 1)
    ∧ box (audgui_simple_message id
        (run id (audgui_simple_message id ⟨0, 0, none⟩
          GtkMessageType.GTK_MESSAGE_INFO "t".toList "a".toList)
          (List.replicate 11 ⟨GtkMessageType.GTK_MESSAGE_INFO, "t".toList, "a".toList⟩))
        GtkMessageType.GTK_MESSAGE_INFO "t".toList "b".toList)
      = some (some "a\nb".toList, 2) := by
  decide

/-- C10: in every state reached from a dialog created by
`audgui_simple_message` through further calls with any arguments, a text is
present, the counter `m` has `1 ≤ m ≤ 12` and equals 1 plus the number of calls
that changed the text (so at most 11 calls changed it), and if `m > 10` and the
text contains the placeholder then no later run of calls changes the text or
the counter. -/
theorem C10_bounded_growth (gettext : CStr → CStr) (a s : Nat)
    (type : GtkMessageType) (title T : CStr) (calls : List Call) :
    box (audgui_simple_message gettext ⟨a, s, none⟩ type title T) = some (some T, 1)
      ∧ ∃ old m,
          box (run gettext (audgui_simple_message gettext ⟨a, s, none⟩ type title T) calls)
            = some (some old, m)
          ∧ 1 ≤ m ∧ m ≤ 12
          ∧ m = 1 + changes gettext (audgui_simple_message gettext ⟨a, s, none⟩ type title T)
                calls
          ∧ changes gettext (audgui_simple_message gettext ⟨a, s, none⟩ type title T) calls
              ≤ 11
          ∧ (m > 10 → placeholder gettext <:+: old → ∀ later : List Call,
              box (run gettext
                  (run gettext (audgui_simple_message gettext ⟨a, s, none⟩ type title T) calls)
                  later) = some (some old, m)
              ∧ changes gettext
                  (run gettext (audgui_simple_message gettext ⟨a, s, none⟩ type title T) calls)
                  later = 0) := by
  have h1 : box (audgui_simple_message gettext ⟨a, s, none⟩ type title T) = some (some T, 1) :=
    box_closed gettext _ type title T rfl
  refine ⟨h1, ?_⟩
  have hrun := box_of_run gettext calls _ _ h1
  have hch := changes_of_run gettext calls _ _ h1
  obtain ⟨⟨old, ht, hlo, hhi, _⟩, hcount⟩ :=
    box_run_inv gettext calls _ (boxInv_created gettext T)
  simp only at hcount
  have hb : box_run gettext (some T, 1) calls
      = (some old, (box_run gettext (some T, 1) calls).2) := by rw [← ht]
  refine ⟨old, (box_run gettext (some T, 1) calls).2, ?_, hlo, hhi, ?_, ?_, ?_⟩
  · rw [hrun, ← ht]
  · rw [hch, hcount]
  · rw [hch]; omega
  · intro hm hP later
    rw [hb] at hrun
    obtain ⟨e1, e2⟩ := box_run_hidden gettext old _ hm hP later
    exact ⟨by rw [box_of_run gettext later _ _ hrun, e1],
      by rw [changes_of_run gettext later _ _ hrun, e2]⟩

/-- C7: `audgui_destroy_on_escape` connects `escape_destroy_cb` to the
"key-press-event" signal of the widget, and on every key event the handler
destroys the widget and returns TRUE if and only if the key is
`GDK_KEY_Escape`; for every other key it returns FALSE and leaves the widget
as it was. -/
theorem C7_escape_closes (widget : GtkWidget) (event : GdkEventKey) :
    (audgui_destroy_on_escape widget).handlers
        = widget.handlers ++ [⟨"key-press-event", GCallback.escape_destroy_cb, none, false⟩]
      ∧ (((escape_destroy_cb widget event).1.destroyed = true
            ∧ (escape_destroy_cb widget event).2 = true)
          ↔ event.keyval = GDK_KEY_Escape)
      ∧ (event.keyval = GDK_KEY_Escape →
          escape_destroy_cb widget event = (gtk_widget_destroy widget, true))
      ∧ (event.keyval ≠ GDK_KEY_Escape → escape_destroy_cb widget event = (widget, false)) := by
  refine ⟨rfl, ?_, ?_, ?_⟩
  · by_cases h : event.keyval = GDK_KEY_Escape
    · simp [escape_destroy_cb, h, gtk_widget_destroy]
    · simp [escape_destroy_cb, h]
  · intro h; simp [escape_destroy_cb, h]
  · intro h; simp [escape_destroy_cb, h]

theorem C7_witness :
    (audgui_destroy_on_escape (example_dialog none 0)).handlers
        = (example_dialog none 0).handlers
            ++ [⟨"key-press-event", GCallback.escape_destroy_cb, none, false⟩]
      ∧ (((escape_destroy_cb (example_dialog none 0) ⟨0xff1b⟩).1.destroyed = true
            ∧ (escape_destroy_cb (example_dialog none 0) ⟨0xff1b⟩).2 = true)
          ↔ (⟨0xff1b⟩ : GdkEventKey).keyval = GDK_KEY_Escape)
      ∧ ((⟨0xff1b⟩ : GdkEventKey).keyval = GDK_KEY_Escape →
          escape_destroy_cb (example_dialog none 0) ⟨0xff1b⟩
            = (gtk_widget_destroy (example_dialog none 0), true))
      ∧ ((⟨0xff1b⟩ : GdkEventKey).keyval ≠ GDK_KEY_Escape →
          escape_destroy_cb (example_dialog none 0) ⟨0xff1b⟩ = (example_dialog none 0, false)) :=
  C7_escape_closes (example_dialog none 0) ⟨0xff1b⟩

/-- C8: when the bold layout "0123456789" measures `w` pixels with
`0 ≤ w ≤ INT_MAX - 9`, `audgui_get_digit_width` returns `r = (w + 9) / 10`, the
ceiling of `w / 10`: `r` is the least integer with `10 * r ≥ w`, so
`10 * (r - 1) < w ≤ 10 * r`, and `r = 0` exactly when `w = 0`. -/
theorem C8_digit_width_ceiling (pango_layout_get_pixel_size : PangoLayout → Int) (w : Int)
    (hw : pango_layout_get_pixel_size ⟨"0123456789".toList, true⟩ = w)
    (h0 : 0 ≤ w) (hmax : w ≤ INT_MAX - 9) :
    audgui_get_digit_width pango_layout_get_pixel_size = (w + 9) / 10
      ∧ 10 * audgui_get_digit_width pango_layout_get_pixel_size ≥ w
      ∧ (∀ k : Int, 10 * k ≥ w → audgui_get_digit_width pango_layout_get_pixel_size ≤ k)
      ∧ 10 * (audgui_get_digit_width pango_layout_get_pixel_size - 1) < w
      ∧ (audgui_get_digit_width pango_layout_get_pixel_size = 0 ↔ w = 0) := by
  have hadd : int_add w 9 = w + 9 := int_add_exact w 9 (by push_cast; omega)
  have hr : audgui_get_digit_width pango_layout_get_pixel_size = (w + 9) / 10 := by
    simp only [audgui_get_digit_width, hw]
    rw [hadd]
    exact Int.tdiv_eq_ediv (by omega) (by omega)
  rw [hr]
  refine ⟨rfl, by omega, fun k hk => by omega, by omega, by omega⟩

theorem C8_witness :
    audgui_get_digit_width example_measure = (61 + 9) / 10
      ∧ 10 * audgui_get_digit_width example_measure ≥ 61
      ∧ (∀ k : Int, 10 * k ≥ 61 → audgui_get_digit_width example_measure ≤ k)
      ∧ 10 * (audgui_get_digit_width example_measure - 1) < 61
      ∧ (audgui_get_digit_width example_measure = 0 ↔ (61 : Int) = 0) :=
  C8_digit_width_ceiling example_measure 61 (by decide) (by decide) (by decide)

/-- C9: `audgui_dialog_new` builds a dialog with one or two action buttons.
Without `button2` the action widgets are `button1` alone; with it they are
`button2`, then `button1` (as pointers, and as objects with the "clicked"
connection added and `button1` able to be the default).  In both cases
`button1` is the default widget, and a click on any action widget destroys
the dialog. -/
theorem C9_dialog_buttons (handle : Nat) (type : GtkMessageType) (title text : CStr)
    (button1 button2 : GtkButton) :
    (audgui_dialog_new handle type title text button1 none).action_widgets
        = [{ button1 with handlers := button1.handlers ++ [destroy_on_click handle],
                          can_default := true }]
      ∧ (audgui_dialog_new handle type title text button1 (some button2)).action_widgets.map
          GtkButton.handle = [button2.handle, button1.handle]
      ∧ (button1.handle ≠ button2.handle →
          (audgui_dialog_new handle type title text button1 (some button2)).action_widgets
            = [{ button2 with handlers := button2.handlers ++ [destroy_on_click handle] },
               { button1 with handlers := button1.handlers ++ [destroy_on_click handle],
                              can_default := true }])
      ∧ (∀ b2 : Option GtkButton,
          (audgui_dialog_new handle type title text button1 b2).default_widget
              = some button1.handle
            ∧ (∀ b ∈ (audgui_dialog_new handle type title text button1 b2).action_widgets,
                b.handle = button1.handle → b.can_default = true)
            ∧ (∀ b ∈ (audgui_dialog_new handle type title text button1 b2).action_widgets,
                (gtk_button_clicked (audgui_dialog_new handle type title text button1 b2)
                  b).destroyed = true)) := by
  refine ⟨?_, ?_, ?_, ?_⟩
  · cases type <;>
      simp [audgui_dialog_new, icon_for_message_type, gtk_message_dialog_new,
        gtk_window_set_title, gtk_message_dialog_set_image, gtk_dialog_add_action_widget,
        with_child, gtk_widget_grab_default, g_signal_connect_swapped,
        gtk_widget_set_can_default, destroy_on_click]
  · cases type <;>
      simp [audgui_dialog_new, icon_for_message_type, gtk_message_dialog_new,
        gtk_window_set_title, gtk_message_dialog_set_image, gtk_dialog_add_action_widget,
        with_child, gtk_widget_grab_default, g_signal_connect_swapped,
        gtk_widget_set_can_default, destroy_on_click] <;>
      split_ifs <;> simp_all
  · intro hne
    have hne2 : ¬ button2.handle = button1.handle := fun h => hne h.symm
    cases type <;>
      simp [audgui_dialog_new, icon_for_message_type, gtk_message_dialog_new,
        gtk_window_set_title, gtk_message_dialog_set_image, gtk_dialog_add_action_widget,
        with_child, gtk_widget_grab_default, g_signal_connect_swapped,
        gtk_widget_set_can_default, destroy_on_click, hne2]
  · intro b2
    have hh : (audgui_dialog_new handle type title text button1 b2).handle = handle := by
      cases type <;> cases b2 <;> rfl
    have hmem : ∀ b ∈ (audgui_dialog_new handle type title text button1 b2).action_widgets,
        destroy_on_click handle ∈ b.handlers := by
      cases b2 <;> cases type <;>
        simp [audgui_dialog_new, icon_for_message_type, gtk_message_dialog_new,
          gtk_window_set_title, gtk_message_dialog_set_image, gtk_dialog_add_action_widget,
          with_child, gtk_widget_grab_default, g_signal_connect_swapped,
          gtk_widget_set_can_default, destroy_on_click] <;>
        split_ifs <;> simp_all
    refine ⟨?_, ?_, ?_⟩
    · cases type <;> cases b2 <;> rfl
    · cases b2 <;> cases type <;>
        simp [audgui_dialog_new, icon_for_message_type, gtk_message_dialog_new,
          gtk_window_set_title, gtk_message_dialog_set_image, gtk_dialog_add_action_widget,
          with_child, gtk_widget_grab_default, g_signal_connect_swapped,
          gtk_widget_set_can_default, destroy_on_click] <;>
        split_ifs <;> simp_all
    · intro b hb
      apply clicked_destroys _ b true
      rw [hh]
      exact hmem b hb

theorem C9_witness :
    (audgui_dialog_new 5 GtkMessageType.GTK_MESSAGE_INFO "t".toList "x".toList
        (example_button 1) none).action_widgets
        = [{ example_button 1 with
             handlers := (example_button 1).handlers ++ [destroy_on_click 5],
             can_default := true }]
      ∧ (audgui_dialog_new 5 GtkMessageType.GTK_MESSAGE_INFO "t".toList "x".toList
          (example_button 1) (some (example_button 2))).action_widgets.map
          GtkButton.handle = [(example_button 2).handle, (example_button 1).handle]
      ∧ ((example_button 1).handle ≠ (example_button 2).handle →
          (audgui_dialog_new 5 GtkMessageType.GTK_MESSAGE_INFO "t".toList "x".toList
            (example_button 1) (some (example_button 2))).action_widgets
            = [{ example_button 2 with
                 handlers := (example_button 2).handlers ++ [destroy_on_click 5] },
               { example_button 1 with
                 handlers := (example_button 1).handlers ++ [destroy_on_click 5],
                 can_default := true }])
      ∧ (∀ b2 : Option GtkButton,
          (audgui_dialog_new 5 GtkMessageType.GTK_MESSAGE_INFO "t".toList "x".toList
            (example_button 1) b2).default_widget = some (example_button 1).handle
            ∧ (∀ b ∈ (audgui_dialog_new 5 GtkMessageType.GTK_MESSAGE_INFO "t".toList
                  "x".toList (example_button 1) b2).action_widgets,
                b.handle = (example_button 1).handle → b.can_default = true)
            ∧ (∀ b ∈ (audgui_dialog_new 5 GtkMessageType.GTK_MESSAGE_INFO "t".toList
                  "x".toList (example_button 1) b2).action_widgets,
                (gtk_button_clicked (audgui_dialog_new 5 GtkMessageType.GTK_MESSAGE_INFO
                  "t".toList "x".toList (example_button 1) b2) b).destroyed = true)) :=
  C9_dialog_buttons 5 GtkMessageType.GTK_MESSAGE_INFO "t".toList "x".toList
    (example_button 1) (example_button 2)

theorem C10_witness :
    box (audgui_simple_message id ⟨0, 0, none⟩
        GtkMessageType.GTK_MESSAGE_INFO "t".toList "a".toList) = some (some "a".toList, 1)
      ∧ ∃ old m,
          box (run id (audgui_simple_message id ⟨0, 0, none⟩
              GtkMessageType.GTK_MESSAGE_INFO "t".toList "a".toList) example_calls)
            = some (some old, m)
          ∧ 1 ≤ m ∧ m ≤ 12
          ∧ m = 1 + changes id (audgui_simple_message id ⟨0, 0, none⟩
              GtkMessageType.GTK_MESSAGE_INFO "t".toList "a".toList) example_calls
          ∧ changes id (audgui_simple_message id ⟨0, 0, none⟩
              GtkMessageType.GTK_MESSAGE_INFO "t".toList "a".toList) example_calls ≤ 11
          ∧ (m > 10 → placeholder id <:+: old → ∀ later : List Call,
              box (run id
                  (run id (audgui_simple_message id ⟨0, 0, none⟩
                    GtkMessageType.GTK_MESSAGE_INFO "t".toList "a".toList) example_calls)
                  later) = some (some old, m)
              ∧ changes id
                  (run id (audgui_simple_message id ⟨0, 0, none⟩
                    GtkMessageType.GTK_MESSAGE_INFO "t".toList "a".toList) example_calls)
                  later = 0) :=
  C10_bounded_growth id 0 0 GtkMessageType.GTK_MESSAGE_INFO "t".toList "a".toList
    example_calls

/-- The run of `example_calls` on a box created with "a" reaches the counter
12: ten texts are appended, then the placeholder. -/
theorem example_run_reaches_twelve :
    box (run id (audgui_simple_message id ⟨0, 0, none⟩
        GtkMessageType.GTK_MESSAGE_INFO "t".toList "a".toList) example_calls)
      = some (some
          "a\nb\nc\nd\ne\nf\ng\nh\ni\nj\nk\n\n(Further messages have been hidden.)".toList,
          12)
    ∧ changes id (audgui_simple_message id ⟨0, 0, none⟩
        GtkMessageType.GTK_MESSAGE_INFO "t".toList "a".toList) example_calls = 11 := by
  decide

end Audgui
